import Mathlib

/-!
Verification of the moving-map panel (`app/tabs/moving_map.py`) of the
AVR-GUI ground-control application.

The numeric computations of the panel are embedded over `ℚ`: the Python
code works with Python floats, whose algebra on the inputs considered
here is exact, so rational arithmetic is a faithful model.  Rendering
concerns (SVG loading, painting, Qt event plumbing) are abstracted away;
what is modelled is the state each widget keeps and how every handler
transforms it, following the source line by line.
-/

namespace InfiniteGridGraphicsScene

/-- `InfiniteGridGraphicsScene.PIXELS_PER_METER` (moving_map.py line 338):
how many pixels per meter. -/
def PIXELS_PER_METER : ℚ := 50

/-- `InfiniteGridGraphicsScene.LINE_METER_SPACING` (moving_map.py line 340):
how many meters between grid lines. -/
def LINE_METER_SPACING : ℚ := 1

end InfiniteGridGraphicsScene

/-- The NED-to-screen transform used by
`MovingMapGraphicsWidget.update_drone_position` (moving_map.py lines
478-479): `new_drone_center_x = y * PIXELS_PER_METER`,
`new_drone_center_y = -x * PIXELS_PER_METER`, where the drone XYZ
arguments `(x, y)` are the NED `(n, e)` components. -/
def toScreen (n e scale : ℚ) : ℚ × ℚ :=
  (e * scale, -n * scale)

/-- The screen-to-NED transform used by
`MovingMapGraphicsWidget.contextMenuEvent` (moving_map.py lines 556-558):
`local_coord_n = -local_coord.y() / PIXELS_PER_METER`,
`local_coord_e = local_coord.x() / PIXELS_PER_METER`. -/
def toWorld (x y scale : ℚ) : ℚ × ℚ :=
  (-y / scale, x / scale)

/-- Modelled from the spec: `app.lib.calc.constrain` is imported by
moving_map.py but its module is not among the sources.  The spec (§4.3)
describes it as `clamp(v, lo, hi)`: values below `lo` become `lo`,
values above `hi` become `hi`, values inside are unchanged. -/
def constrain (value min_value max_value : ℚ) : ℚ :=
  min max_value (max min_value value)

/-- Modelled from the spec: `app.lib.calc.normalize_value` is imported by
moving_map.py but its module is not among the sources.  The spec (§4.4)
describes the normalization as "linearly mapped and clamped to `[0,1]`"
over the configured `[min, max]` range. -/
def normalize_value (value min_value max_value : ℚ) : ℚ :=
  constrain ((value - min_value) / (max_value - min_value)) 0 1

namespace AttitudeIndicator

/-- `AttitudeIndicator._original_pizel_per_deg` (moving_map.py line 81),
spelled as in the source. -/
def original_pizel_per_deg : ℚ := 17 / 10

/-- The trigonometric primitives `math.radians`, `math.sin`, `math.cos`
used by `AttitudeIndicator._update_view`, kept abstract so that the
structure of the frame update can be stated independently of any
rational approximation of trigonometry. -/
structure TrigOps where
  radians : ℚ → ℚ
  sin : ℚ → ℚ
  cos : ℚ → ℚ

/-- The mutable state of `AttitudeIndicator` relevant to its update
logic: the stored roll/pitch, the old/new face deltas (moving_map.py
lines 69-75), the rotation applied to the back/ring/face items and the
accumulated position of the face item (the target of `moveBy`). -/
structure AttitudeState where
  roll : ℚ
  pitch : ℚ
  face_delta_x_new : ℚ
  face_delta_x_old : ℚ
  face_delta_y_new : ℚ
  face_delta_y_old : ℚ
  back_rotation : ℚ
  ring_rotation : ℚ
  face_rotation : ℚ
  face_pos : ℚ × ℚ
deriving DecidableEq

/-- The initial `AttitudeIndicator` state before the first view update:
all persistent values start at zero (moving_map.py lines 69-75). -/
def att_state_init : AttitudeState :=
  ⟨0, 0, 0, 0, 0, 0, 0, 0, 0, (0, 0)⟩

/-- `AttitudeIndicator.set_roll` (moving_map.py lines 159-163):
`self._roll = constrain(roll, -180, 180)`. -/
def set_roll (roll : ℚ) (s : AttitudeState) : AttitudeState :=
  { s with roll := constrain roll (-180) 180 }

/-- `AttitudeIndicator.set_pitch` (moving_map.py lines 165-169):
`self._pitch = constrain(pitch, -25, 25)`. -/
def set_pitch (pitch : ℚ) (s : AttitudeState) : AttitudeState :=
  { s with pitch := constrain pitch (-25) 25 }

/-- `AttitudeIndicator._update_view` (moving_map.py lines 179-201): the
back/ring/face items are rotated to `-roll`, the new face deltas are
`scale * (pixels-per-degree * pitch) * sin/cos(radians roll)`, and the
face item is moved by the difference between the new and old deltas.
`scale_x`/`scale_y` are the `width/original_width`,
`height/original_height` ratios the method recomputes (lines 183-184),
passed here as parameters. -/
def update_view (ops : TrigOps) (scale_x scale_y : ℚ) (s : AttitudeState) :
    AttitudeState :=
  let roll_rad := ops.radians s.roll
  let delta := original_pizel_per_deg * s.pitch
  let dx_new := scale_x * delta * ops.sin roll_rad
  let dy_new := scale_y * delta * ops.cos roll_rad
  { s with
    back_rotation := -s.roll
    ring_rotation := -s.roll
    face_rotation := -s.roll
    face_delta_x_new := dx_new
    face_delta_y_new := dy_new
    face_pos := (s.face_pos.1 + (dx_new - s.face_delta_x_old),
                 s.face_pos.2 + (dy_new - s.face_delta_y_old)) }

/-- `AttitudeIndicator.update` (moving_map.py lines 151-157): one frame
re-draws the view and then latches the old deltas to the new ones. -/
def update (ops : TrigOps) (scale_x scale_y : ℚ) (s : AttitudeState) :
    AttitudeState :=
  let s1 := update_view ops scale_x scale_y s
  { s1 with
    face_delta_x_old := s1.face_delta_x_new
    face_delta_y_old := s1.face_delta_y_new }

end AttitudeIndicator

namespace DroneAltitudeWidget

/-- `DroneAltitudeWidget.GROUND_WIDTH` (moving_map.py line 205). -/
def GROUND_WIDTH : ℚ := 3

/-- `DroneAltitudeWidget.CANVAS_HEIGHT` (moving_map.py line 211). -/
def CANVAS_HEIGHT : ℚ := 240

/-- `DroneAltitudeWidget.CANVAS_WIDTH` (moving_map.py line 212). -/
def CANVAS_WIDTH : ℚ := 120

/-- The outputs of one `set_altitude` call: the normalized altitude, the
icon position passed to `drone_icon.setPos`, and the value passed to
`altitude_number.display`. -/
structure AltitudeOut where
  norm : ℚ
  x : ℚ
  y : ℚ
  display : ℚ
deriving DecidableEq

/-- `DroneAltitudeWidget.set_altitude` (moving_map.py lines 266-295).
`icon_bound_w`/`icon_bound_h` are the drone icon's bounding-rectangle
width and height and `base_scale` its fit scale, which depend on the SVG
asset and are passed here as parameters.  The altitude is first flipped
(`altitude *= -1`, line 268), normalized over `[0, 20]` (line 271), the
icon is positioned (lines 273-294) and the flipped altitude is displayed
(line 295). -/
def set_altitude (icon_bound_w icon_bound_h base_scale altitude : ℚ) :
    AltitudeOut :=
  let a := altitude * (-1)
  let norm_altitude := normalize_value a 0 20
  let x := CANVAS_WIDTH / 2 - icon_bound_w / 2
  let half_ground_width := GROUND_WIDTH / 2
  let usable_canvas_height := CANVAS_HEIGHT - half_ground_width
  let drone_visual_height := icon_bound_h * base_scale
  let y := usable_canvas_height - norm_altitude * usable_canvas_height
    - drone_visual_height - (icon_bound_h - drone_visual_height) / 2
  ⟨norm_altitude, x, y, a⟩

end DroneAltitudeWidget

namespace MovingMapGraphicsWidget

/-- A track segment: one `QGraphicsLineItem` added by `canvas.addLine`
in `update_drone_position` (moving_map.py lines 503-511).  The `id`
stands for the object identity of the line item; `p1`/`p2` are its
endpoints.  The altitude-derived pen color (lines 492-501) is a pure
rendering attribute and is not modelled. -/
structure Seg where
  id : ℕ
  p1 : ℚ × ℚ
  p2 : ℚ × ℚ
deriving DecidableEq

instance : Inhabited Seg := ⟨⟨0, (0, 0), (0, 0)⟩⟩

/-- The externally supplied configuration read by the widget:
`UserConfig.max_moving_map_tracks` (line 515) and the drone icon's
bounding-rectangle width and height (the icon SVG is requested at 80×80,
line 426). -/
structure MapConfig where
  maxTracks : ℕ
  iconW : ℚ
  iconH : ℚ

/-- The mutable state of `MovingMapGraphicsWidget`: the track list
(line 385), the set of line items currently on the canvas, a counter
giving fresh identities to new line items, the drone icon's top-left
corner position and rotation, the follow flag (line 450) and the
airborne flag (line 388). -/
structure MapState where
  tracks : List Seg
  canvasSegs : List Seg
  nextId : ℕ
  droneCorner : ℚ × ℚ
  droneRot : ℚ
  followDrone : Bool
  droneAirborne : Bool
deriving DecidableEq

/-- The widget state after `MovingMapGraphicsWidget.__init__`
(moving_map.py lines 380-435): no tracks, the drone icon centered on the
origin (lines 429-432), zero rotation, following enabled (line 435) and
not airborne (line 388). -/
def init_map_state (cfg : MapConfig) : MapState :=
  { tracks := []
    canvasSegs := []
    nextId := 0
    droneCorner := (-cfg.iconW / 2, -cfg.iconH / 2)
    droneRot := 0
    followDrone := true
    droneAirborne := false }

/-- The current center of the drone icon as computed in
`update_drone_position` (moving_map.py lines 466-475): the stored
top-left corner plus half the bounding rectangle in each axis. -/
def current_center (cfg : MapConfig) (s : MapState) : ℚ × ℚ :=
  (s.droneCorner.1 + cfg.iconW / 2, s.droneCorner.2 + cfg.iconH / 2)

/-- The line item appended by `update_drone_position` (moving_map.py
lines 503-511): from the current drone center to the new drone center
`toScreen x y PIXELS_PER_METER` (lines 478-479), with a fresh object
identity. -/
def pos_seg (cfg : MapConfig) (x y : ℚ) (s : MapState) : Seg :=
  ⟨s.nextId, current_center cfg s,
    toScreen x y InfiniteGridGraphicsScene.PIXELS_PER_METER⟩

/-- The effect of one `update_drone_position` call on the track list
(moving_map.py lines 503-516): append the new segment, then if the list
is longer than the configured maximum, `pop(0)` the oldest one. -/
def append_track (maxTracks : ℕ) (ts : List Seg) (seg : Seg) : List Seg :=
  let ts1 := ts ++ [seg]
  if ts1.length > maxTracks then ts1.drop 1 else ts1

/-- `MovingMapGraphicsWidget.update_drone_position` (moving_map.py lines
458-524).  The arguments `(x, y, z)` are the NED `(n, e, d)` components
of the position payload.  A track segment is drawn from the current to
the new drone center, the oldest segment is evicted (from both the list
and the canvas) when the configured maximum is exceeded, and the icon is
moved to the new corner.  `z` only influences the pen color (lines
492-498), which is not modelled; the follow-mode recentering (lines
521-524) moves only the viewport camera, not the state modelled here. -/
def update_drone_position (cfg : MapConfig) (x y z : ℚ) (s : MapState) :
    MapState :=
  let new_drone_center := toScreen x y InfiniteGridGraphicsScene.PIXELS_PER_METER
  let new_drone_corner := (new_drone_center.1 - cfg.iconW / 2,
                           new_drone_center.2 - cfg.iconH / 2)
  let seg := pos_seg cfg x y s
  let tracks1 := s.tracks ++ [seg]
  let canvas1 := s.canvasSegs ++ [seg]
  if tracks1.length > cfg.maxTracks then
    { s with
      tracks := tracks1.drop 1
      canvasSegs := canvas1.erase tracks1.headI
      nextId := s.nextId + 1
      droneCorner := new_drone_corner }
  else
    { s with
      tracks := tracks1
      canvasSegs := canvas1
      nextId := s.nextId + 1
      droneCorner := new_drone_corner }

/-- A stream of position payloads processed in order by
`update_drone_position`, each triple being `(n, e, d)`. -/
def run_position_updates (cfg : MapConfig) (samples : List (ℚ × ℚ × ℚ))
    (s : MapState) : MapState :=
  samples.foldl (fun st p => update_drone_position cfg p.1 p.2.1 p.2.2 st) s

/-- The segments created, in temporal order, while processing a stream
of position payloads from a given state. -/
def created_segs (cfg : MapConfig) (samples : List (ℚ × ℚ × ℚ))
    (s : MapState) : List Seg :=
  match samples with
  | [] => []
  | p :: rest =>
    pos_seg cfg p.1 p.2.1 s ::
      created_segs cfg rest (update_drone_position cfg p.1 p.2.1 p.2.2 s)

/-- `MovingMapGraphicsWidget.clear_tracks` (moving_map.py lines
437-444): every stored track is removed from the canvas in order, then
the track list is emptied.  The Python method is annotated `-> None` and
has no return statement, so its return value is `none`. -/
def clear_tracks (s : MapState) : MapState × Option (List ℕ) :=
  ({ s with
      canvasSegs := s.tracks.foldl (fun cs t => cs.erase t) s.canvasSegs
      tracks := [] },
    none)

/-- `MovingMapGraphicsWidget.reset` (moving_map.py lines 532-542): the
drone icon is re-centered on the origin, its rotation zeroed, and the
tracks cleared. -/
def reset (cfg : MapConfig) (s : MapState) : MapState :=
  let s1 := { s with
    droneCorner := (-cfg.iconW / 2, -cfg.iconH / 2)
    droneRot := 0 }
  (clear_tracks s1).1

/-- The command intents that the context menu can offer (moving_map.py
lines 560-596): a `AVRFCMGoToLocal` payload, a land action with no
payload, and a `AVRFCMActionTakeoff` payload. -/
inductive Intent where
  | gotoLocal (n e : ℚ) (d hdg : Option ℚ) (relative : Bool)
  | land
  | takeoff (rel_alt : ℚ)
deriving DecidableEq

/-- `MovingMapGraphicsWidget.contextMenuEvent` (moving_map.py lines
544-596), reduced to the list of command intents offered, in menu
order.  `local_coord` is the click point already mapped into scene
coordinates (line 548); `takeoff_height` is the configured
`UserConfig.takeoff_height` (line 591).  The scene point is inverted and
divided by `PIXELS_PER_METER` (lines 556-558); when airborne the menu
offers a goto with `d = None`, `hdg = None`, `relative = False` (lines
562-584) and a land action, otherwise only a takeoff at the configured
relative altitude (lines 586-594). -/
def context_menu_intents (takeoff_height : ℚ) (airborne : Bool)
    (local_coord : ℚ × ℚ) : List Intent :=
  let local_coord_n := (toWorld local_coord.1 local_coord.2
    InfiniteGridGraphicsScene.PIXELS_PER_METER).1
  let local_coord_e := (toWorld local_coord.1 local_coord.2
    InfiniteGridGraphicsScene.PIXELS_PER_METER).2
  if airborne then
    [Intent.gotoLocal local_coord_n local_coord_e none none false,
     Intent.land]
  else
    [Intent.takeoff takeoff_height]

/-- A concrete widget state with two tracks on the canvas, used to
evaluate the clearing behavior. -/
def ex_state : MapState :=
  { tracks := [⟨0, (0, 0), (0, -50)⟩, ⟨1, (0, -50), (50, -50)⟩]
    canvasSegs := [⟨0, (0, 0), (0, -50)⟩, ⟨1, (0, -50), (50, -50)⟩]
    nextId := 2
    droneCorner := (10, -90)
    droneRot := 45
    followDrone := true
    droneAirborne := true }

end MovingMapGraphicsWidget

/-! ## Helper lemmas -/

open MovingMapGraphicsWidget

/-- The track list of one position update is `append_track` applied to
the previous track list and the created segment. -/
lemma update_drone_position_tracks (cfg : MapConfig) (x y z : ℚ)
    (s : MapState) :
    (update_drone_position cfg x y z s).tracks =
      append_track cfg.maxTracks s.tracks (pos_seg cfg x y s) := by
  by_cases h : (s.tracks ++ [pos_seg cfg x y s]).length > cfg.maxTracks
  · show (if (s.tracks ++ [pos_seg cfg x y s]).length > cfg.maxTracks
        then _ else _ : MapState).tracks = _
    rw [if_pos h]
    simp only [append_track]
    rw [if_pos h]
  · show (if (s.tracks ++ [pos_seg cfg x y s]).length > cfg.maxTracks
        then _ else _ : MapState).tracks = _
    rw [if_neg h]
    simp only [append_track]
    rw [if_neg h]

/-- One `append_track` step keeps the track count at or below the
configured maximum. -/
lemma append_track_length_le (m : ℕ) (ts : List Seg) (seg : Seg)
    (h : ts.length ≤ m) : (append_track m ts seg).length ≤ m := by
  simp only [append_track]
  by_cases hc : (ts ++ [seg]).length > m
  · rw [if_pos hc]
    simp only [List.length_drop, List.length_append, List.length_singleton, List.length_nil, List.length_cons]
    omega
  · rw [if_neg hc]
    simp only [List.length_append, List.length_singleton, List.length_nil, List.length_cons] at hc ⊢
    omega

/-- Folding `append_track` over a segment list, starting from a short
enough initial list, keeps exactly the suffix of the concatenation that
fits in the bound. -/
lemma foldl_append_track_eq (m : ℕ) (segs : List Seg) :
    ∀ init : List Seg, init.length ≤ m →
      List.foldl (append_track m) init segs =
        (init ++ segs).drop (init.length + segs.length - m) := by
  induction segs with
  | nil =>
    intro init h
    simp [Nat.sub_eq_zero_of_le h]
  | cons seg rest ih =>
    intro init h
    by_cases hm : init.length + 1 ≤ m
    · have hcond : ¬ (init ++ [seg]).length > m := by
        simp only [List.length_append, List.length_singleton, List.length_nil, List.length_cons]
        omega
      have ha : append_track m init seg = init ++ [seg] := by
        simp only [append_track]
        exact if_neg hcond
      have hlen : (init ++ [seg]).length ≤ m := by
        simp only [List.length_append, List.length_singleton, List.length_nil, List.length_cons]
        omega
      rw [List.foldl_cons, ha, ih _ hlen]
      have e1 : init ++ [seg] ++ rest = init ++ seg :: rest := by simp
      have e2 : (init ++ [seg]).length + rest.length
          = init.length + (seg :: rest).length := by
        simp only [List.length_append, List.length_singleton, List.length_nil, List.length_cons]
        omega
      rw [e1, e2]
    · have hm' : init.length = m := by omega
      have hcond : (init ++ [seg]).length > m := by
        simp only [List.length_append, List.length_singleton, List.length_nil, List.length_cons]
        omega
      have ha : append_track m init seg = (init ++ [seg]).drop 1 := by
        simp only [append_track]
        exact if_pos hcond
      have hlen : ((init ++ [seg]).drop 1).length ≤ m := by
        simp only [List.length_drop, List.length_append, List.length_singleton, List.length_nil, List.length_cons]
        omega
      rw [List.foldl_cons, ha, ih _ hlen]
      have e2 : ((init ++ [seg]).drop 1).length + rest.length - m
          = rest.length := by
        simp only [List.length_drop, List.length_append, List.length_singleton, List.length_nil, List.length_cons]
        omega
      have e3 : init.length + (seg :: rest).length - m = rest.length + 1 := by
        simp only [List.length_cons]
        omega
      rw [e2, e3]
      cases init with
      | nil =>
        simp [List.drop_length]
      | cons a init₂ =>
        have e4 : ((a :: init₂) ++ [seg]).drop 1 = init₂ ++ [seg] := rfl
        have e5 : init₂ ++ [seg] ++ rest = init₂ ++ seg :: rest := by simp
        have e6 : (a :: init₂) ++ seg :: rest = a :: (init₂ ++ seg :: rest) :=
          rfl
        rw [e4, e5, e6, List.drop_succ_cons]

/-- Running a stream of position updates folds `append_track` over the
created segments. -/
lemma run_position_updates_tracks (cfg : MapConfig)
    (samples : List (ℚ × ℚ × ℚ)) :
    ∀ s : MapState,
      (run_position_updates cfg samples s).tracks =
        List.foldl (append_track cfg.maxTracks) s.tracks
          (created_segs cfg samples s) := by
  induction samples with
  | nil => intro s; rfl
  | cons p rest ih =>
    intro s
    rw [run_position_updates, List.foldl_cons,
      show List.foldl (fun st q => update_drone_position cfg q.1 q.2.1 q.2.2 st)
          (update_drone_position cfg p.1 p.2.1 p.2.2 s) rest
        = run_position_updates cfg rest
          (update_drone_position cfg p.1 p.2.1 p.2.2 s) from rfl,
      ih, created_segs, List.foldl_cons, update_drone_position_tracks]

/-- One run step creates one segment per sample. -/
lemma created_segs_length (cfg : MapConfig) (samples : List (ℚ × ℚ × ℚ)) :
    ∀ s : MapState, (created_segs cfg samples s).length = samples.length := by
  induction samples with
  | nil => intro s; rfl
  | cons p rest ih => intro s; simp [created_segs, ih]

open AttitudeIndicator DroneAltitudeWidget

/-- Any sequence of `append_track` steps starting from a short enough
list keeps the track count at or below the configured maximum. -/
lemma foldl_append_track_length_le (m : ℕ) (segs : List Seg) :
    ∀ init : List Seg, init.length ≤ m →
      (List.foldl (append_track m) init segs).length ≤ m := by
  induction segs with
  | nil => intro init h; simpa using h
  | cons a rest ih =>
    intro init h
    rw [List.foldl_cons]
    exact ih _ (append_track_length_le m init a h)

/-- Membership in the result of successively erasing a list of segments
implies membership in the starting collection. -/
lemma mem_of_mem_foldl_erase :
    ∀ (ts c : List Seg) (t : Seg),
      t ∈ ts.foldl (fun cs x => cs.erase x) c → t ∈ c := by
  intro ts
  induction ts with
  | nil => intro c t h; simpa using h
  | cons a rest ih =>
    intro c t h
    rw [List.foldl_cons] at h
    exact List.mem_of_mem_erase (ih _ _ h)

/-- After erasing every element of `ts` from a duplicate-free
collection, none of the elements of `ts` remain. -/
lemma not_mem_foldl_erase_of_nodup :
    ∀ (ts c : List Seg), c.Nodup →
      ∀ t ∈ ts, t ∉ ts.foldl (fun cs x => cs.erase x) c := by
  intro ts
  induction ts with
  | nil => intro c _ t ht; simp at ht
  | cons a rest ih =>
    intro c hc t ht
    rw [List.foldl_cons]
    rcases List.mem_cons.mp ht with rfl | ht2
    · intro hmem
      have hin : t ∈ c.erase t := mem_of_mem_foldl_erase rest _ t hmem
      exact ((hc.mem_erase_iff).mp hin).1 rfl
    · exact ih (c.erase a) (hc.erase a) t ht2

/-! ## Claims -/

/-- C1: for every pair of NED coordinates `(n, e)` and every scale
`s > 0`, converting to screen coordinates with `x = e*s`, `y = -n*s`
and back with `n = -y/s`, `e = x/s` returns the original pair (exactly,
over `ℚ`); in the program both directions use the same constant scale
`PIXELS_PER_METER = 50`. -/
theorem transform_round_trip (n e s : ℚ) (hs : 0 < s) :
    toWorld (toScreen n e s).1 (toScreen n e s).2 s = (n, e) ∧
      InfiniteGridGraphicsScene.PIXELS_PER_METER = 50 := by
  refine ⟨?_, rfl⟩
  have hs2 : s ≠ 0 := ne_of_gt hs
  simp only [toScreen, toWorld, Prod.mk.injEq]
  constructor
  · rw [div_eq_iff hs2]
    ring
  · exact mul_div_cancel_right₀ e hs2

/-- Witness for C1 at `(n, e) = (3, -4)` and `s = 50`. -/
theorem transform_round_trip_witness :
    0 < (50 : ℚ) ∧
      (toWorld (toScreen 3 (-4) 50).1 (toScreen 3 (-4) 50).2 50 = (3, -4) ∧
        InfiniteGridGraphicsScene.PIXELS_PER_METER = 50) :=
  ⟨by decide, transform_round_trip 3 (-4) 50 (by decide)⟩

/-- C6: one frame of the attitude indicator computes
`delta = pixelsPerDegree * pitch`,
`dx_new = scaleX * delta * sin(roll in radians)`,
`dy_new = scaleY * delta * cos(roll in radians)`, rotates the
back/ring/face layers by `-roll`, moves the face layer by the relative
amount `(dx_new - dx_old, dy_new - dy_old)`, and afterwards latches
`dx_old, dy_old` to `dx_new, dy_new`. -/
theorem attitude_frame_update (ops : TrigOps) (scale_x scale_y : ℚ)
    (s : AttitudeState) :
    (update ops scale_x scale_y s).back_rotation = -s.roll ∧
    (update ops scale_x scale_y s).ring_rotation = -s.roll ∧
    (update ops scale_x scale_y s).face_rotation = -s.roll ∧
    (update ops scale_x scale_y s).face_delta_x_new =
      scale_x * (original_pizel_per_deg * s.pitch) *
        ops.sin (ops.radians s.roll) ∧
    (update ops scale_x scale_y s).face_delta_y_new =
      scale_y * (original_pizel_per_deg * s.pitch) *
        ops.cos (ops.radians s.roll) ∧
    (update ops scale_x scale_y s).face_pos =
      (s.face_pos.1 +
        (scale_x * (original_pizel_per_deg * s.pitch) *
            ops.sin (ops.radians s.roll) - s.face_delta_x_old),
       s.face_pos.2 +
        (scale_y * (original_pizel_per_deg * s.pitch) *
            ops.cos (ops.radians s.roll) - s.face_delta_y_old)) ∧
    (update ops scale_x scale_y s).face_delta_x_old =
      (update ops scale_x scale_y s).face_delta_x_new ∧
    (update ops scale_x scale_y s).face_delta_y_old =
      (update ops scale_x scale_y s).face_delta_y_new ∧
    (update ops scale_x scale_y s).roll = s.roll ∧
    (update ops scale_x scale_y s).pitch = s.pitch :=
  ⟨rfl, rfl, rfl, rfl, rfl, rfl, rfl, rfl, rfl, rfl⟩

/-- C8: `set_roll` stores `clamp(v, -180, 180)` and `set_pitch` stores
`clamp(v, -25, 25)`: `set_roll 200` stores `180`, `set_roll (-200)`
stores `-180`, `set_pitch 40` stores `25`, `set_pitch (-40)` stores
`-25`, and in-range values are stored unchanged. -/
theorem roll_pitch_clamping (v : ℚ) (s : AttitudeState) :
    (set_roll 200 s).roll = 180 ∧
    (set_roll (-200) s).roll = -180 ∧
    (set_pitch 40 s).pitch = 25 ∧
    (set_pitch (-40) s).pitch = -25 ∧
    (set_roll v s).roll = constrain v (-180) 180 ∧
    (set_pitch v s).pitch = constrain v (-25) 25 ∧
    (-180 ≤ v → v ≤ 180 → (set_roll v s).roll = v) ∧
    (-25 ≤ v → v ≤ 25 → (set_pitch v s).pitch = v) := by
  refine ⟨?_, ?_, ?_, ?_, rfl, rfl, ?_, ?_⟩
  · show constrain 200 (-180) 180 = (180 : ℚ)
    decide
  · show constrain (-200) (-180) 180 = (-180 : ℚ)
    decide
  · show constrain 40 (-25) 25 = (25 : ℚ)
    decide
  · show constrain (-40) (-25) 25 = (-25 : ℚ)
    decide
  · intro h1 h2
    show constrain v (-180) 180 = v
    rw [constrain, max_eq_right h1, min_eq_right h2]
  · intro h1 h2
    show constrain v (-25) 25 = v
    rw [constrain, max_eq_right h1, min_eq_right h2]

/-- Witness for C8 at `v = 5` and the initial indicator state. -/
theorem roll_pitch_clamping_witness :
    ((-180 : ℚ) ≤ 5 ∧ (5 : ℚ) ≤ 180 ∧ (-25 : ℚ) ≤ 5 ∧ (5 : ℚ) ≤ 25) ∧
      ((set_roll 5 att_state_init).roll = 5 ∧
        (set_pitch 5 att_state_init).pitch = 5) := by
  have h := roll_pitch_clamping 5 att_state_init
  exact ⟨⟨by decide, by decide, by decide, by decide⟩,
    h.2.2.2.2.2.2.1 (by decide) (by decide),
    h.2.2.2.2.2.2.2 (by decide) (by decide)⟩

/-- C5: the set of command intents offered by the context menu depends
only on the airborne flag: when airborne, exactly a goto-local intent at
the inverse-transformed coordinates (with `d` and `hdg` unset and
`relative` false) and a land intent, never a takeoff; when not airborne,
exactly a takeoff intent at the configured relative altitude (ignoring
the clicked coordinate), never a goto or land. -/
theorem airborne_gated_commands (takeoff_height : ℚ) (p : ℚ × ℚ) :
    context_menu_intents takeoff_height true p =
      [Intent.gotoLocal
          (toWorld p.1 p.2 InfiniteGridGraphicsScene.PIXELS_PER_METER).1
          (toWorld p.1 p.2 InfiniteGridGraphicsScene.PIXELS_PER_METER).2
          none none false,
        Intent.land] ∧
    (∀ a : ℚ, Intent.takeoff a ∉ context_menu_intents takeoff_height true p) ∧
    context_menu_intents takeoff_height false p =
      [Intent.takeoff takeoff_height] ∧
    (∀ (n e : ℚ) (d hdg : Option ℚ) (r : Bool),
      Intent.gotoLocal n e d hdg r ∉
        context_menu_intents takeoff_height false p) ∧
    Intent.land ∉ context_menu_intents takeoff_height false p := by
  refine ⟨rfl, ?_, rfl, ?_, ?_⟩
  · intro a
    simp [context_menu_intents]
  · intro n e d hdg r
    simp [context_menu_intents]
  · simp [context_menu_intents]

/-- C10: the reset operation re-centers the drone icon on the origin,
zeroes its rotation and clears all track segments, while leaving the
follow-mode flag and the airborne flag unchanged. -/
theorem reset_frame_effects (cfg : MapConfig) (s : MapState) :
    (reset cfg s).followDrone = s.followDrone ∧
    (reset cfg s).droneAirborne = s.droneAirborne ∧
    current_center cfg (reset cfg s) = (0, 0) ∧
    (reset cfg s).droneRot = 0 ∧
    (reset cfg s).tracks = [] := by
  refine ⟨rfl, rfl, ?_, rfl, rfl⟩
  simp only [reset, clear_tracks, current_center, Prod.mk.injEq]
  constructor <;> ring

/-- C2: for every configuration value `max_tracks` and every sequence
of position updates starting from an empty track history, the number of
stored track segments is at most `max_tracks` after every update; in
particular with `max_tracks = 0` the count is always `0`. -/
theorem track_history_bound (cfg : MapConfig) (samples : List (ℚ × ℚ × ℚ))
    (s0 : MapState) (h0 : s0.tracks = []) :
    (run_position_updates cfg samples s0).tracks.length ≤ cfg.maxTracks ∧
    (cfg.maxTracks = 0 →
      (run_position_updates cfg samples s0).tracks.length = 0) := by
  have hb : (run_position_updates cfg samples s0).tracks.length ≤
      cfg.maxTracks := by
    rw [run_position_updates_tracks]
    refine foldl_append_track_length_le cfg.maxTracks _ s0.tracks ?_
    simp [h0]
  exact ⟨hb, fun hz => by omega⟩

/-- Witness for C2: three updates against a bound of two tracks. -/
theorem track_history_bound_witness :
    (init_map_state ⟨2, 80, 80⟩).tracks = [] ∧
      ((run_position_updates ⟨2, 80, 80⟩ [(5, 0, -2), (5, 10, -2), (0, 0, 0)]
          (init_map_state ⟨2, 80, 80⟩)).tracks.length ≤ 2 ∧
        ((2 : ℕ) = 0 →
          (run_position_updates ⟨2, 80, 80⟩ [(5, 0, -2), (5, 10, -2), (0, 0, 0)]
            (init_map_state ⟨2, 80, 80⟩)).tracks.length = 0)) :=
  ⟨rfl, track_history_bound ⟨2, 80, 80⟩ [(5, 0, -2), (5, 10, -2), (0, 0, 0)]
    (init_map_state ⟨2, 80, 80⟩) rfl⟩

/-- C3: appending `N > max_tracks` segments in temporal order to an
initially empty track history leaves exactly the most recent
`max_tracks` segments, in their original temporal order (the oldest
segment, the head of the list, is always the one evicted). -/
theorem fifo_eviction_order (cfg : MapConfig) (samples : List (ℚ × ℚ × ℚ))
    (s0 : MapState) (h0 : s0.tracks = [])
    (hN : samples.length > cfg.maxTracks) :
    (run_position_updates cfg samples s0).tracks =
      (created_segs cfg samples s0).drop
        (samples.length - cfg.maxTracks) ∧
    (run_position_updates cfg samples s0).tracks.length = cfg.maxTracks := by
  have h1 : (run_position_updates cfg samples s0).tracks =
      (created_segs cfg samples s0).drop
        ((created_segs cfg samples s0).length - cfg.maxTracks) := by
    rw [run_position_updates_tracks, h0]
    have h2 := foldl_append_track_eq cfg.maxTracks
      (created_segs cfg samples s0) [] (by simp)
    simpa using h2
  rw [created_segs_length] at h1
  refine ⟨h1, ?_⟩
  rw [h1]
  simp only [List.length_drop, created_segs_length]
  omega

/-- Witness for C3: two updates against a bound of one track. -/
theorem fifo_eviction_order_witness :
    (init_map_state ⟨1, 2, 2⟩).tracks = [] ∧
      ([((1 : ℚ), (0 : ℚ), (0 : ℚ)), (2, 0, 0)].length > (1 : ℕ)) ∧
      ((run_position_updates ⟨1, 2, 2⟩ [(1, 0, 0), (2, 0, 0)]
          (init_map_state ⟨1, 2, 2⟩)).tracks =
        (created_segs ⟨1, 2, 2⟩ [(1, 0, 0), (2, 0, 0)]
          (init_map_state ⟨1, 2, 2⟩)).drop
          ([((1 : ℚ), (0 : ℚ), (0 : ℚ)), (2, 0, 0)].length - 1) ∧
      (run_position_updates ⟨1, 2, 2⟩ [(1, 0, 0), (2, 0, 0)]
          (init_map_state ⟨1, 2, 2⟩)).tracks.length = 1) :=
  ⟨rfl, by decide,
    fifo_eviction_order ⟨1, 2, 2⟩ [(1, 0, 0), (2, 0, 0)]
      (init_map_state ⟨1, 2, 2⟩) rfl (by decide)⟩

/-- C4 counterexample: the claim asserts `normalize(10) == 0.5`, but
`set_altitude` first negates its input, so for input `10` the value
`-10` is mapped over `[0, 20]` and clamped from below, giving `0`, not
`0.5` (icon geometry `80 × 50` at fit scale `1`). -/
theorem altitude_normalize_ten_not_half :
    ¬ ((set_altitude 80 50 1 10).norm = 1 / 2) := by
  norm_num [set_altitude, normalize_value, constrain]

/-- C4 (amended): the altitude normalization applied by `set_altitude`
first negates the input NED `d` value and then linearly maps and clamps
it over the range `[0, 20]`; in particular `normalize 0 = 0`,
`normalize (-20) = 1`, `normalize (-30) = 1` (clamped from above), and
`normalize 10 = 0` (clamped from below). -/
theorem altitude_normalization (bw bh bs a : ℚ) :
    (set_altitude bw bh bs a).norm = normalize_value (a * (-1)) 0 20 ∧
    (set_altitude bw bh bs 0).norm = 0 ∧
    (set_altitude bw bh bs (-20)).norm = 1 ∧
    (set_altitude bw bh bs (-30)).norm = 1 ∧
    (set_altitude bw bh bs 10).norm = 0 := by
  refine ⟨rfl, ?_, ?_, ?_, ?_⟩
  · show normalize_value ((0 : ℚ) * (-1)) 0 20 = 0
    norm_num [normalize_value, constrain]
  · show normalize_value ((-20 : ℚ) * (-1)) 0 20 = 1
    norm_num [normalize_value, constrain]
  · show normalize_value ((-30 : ℚ) * (-1)) 0 20 = 1
    norm_num [normalize_value, constrain]
  · show normalize_value ((10 : ℚ) * (-1)) 0 20 = 0
    norm_num [normalize_value, constrain]

/-- C9 counterexample: the claim asserts that the clear operation
returns the list of removed segment identifiers, but
`MovingMapGraphicsWidget.clear_tracks` is annotated `-> None` and has no
return statement: on a state holding the segments with identities `0`
and `1`, the returned value is `none`, not that list. -/
theorem clear_tracks_return_counterexample :
    ¬ ((clear_tracks ex_state).2 = some (ex_state.tracks.map Seg.id)) := by
  decide

/-- C9 (amended): the clear operation removes all stored segments (the
count becomes `0` afterwards) and itself removes each previously stored
segment from the render layer one by one; it returns no value rather
than the list of removed identifiers. -/
theorem clear_tracks_amended (s : MapState) (h : s.canvasSegs.Nodup) :
    (clear_tracks s).1.tracks = [] ∧
    (clear_tracks s).2 = none ∧
    ∀ t ∈ s.tracks, t ∉ (clear_tracks s).1.canvasSegs := by
  refine ⟨rfl, rfl, ?_⟩
  intro t ht
  exact not_mem_foldl_erase_of_nodup s.tracks s.canvasSegs h t ht

/-- Witness for C9 on the concrete two-track state. -/
theorem clear_tracks_amended_witness :
    ex_state.canvasSegs.Nodup ∧
      ((clear_tracks ex_state).1.tracks = [] ∧
        (clear_tracks ex_state).2 = none ∧
        ∀ t ∈ ex_state.tracks, t ∉ (clear_tracks ex_state).1.canvasSegs) :=
  ⟨by decide, clear_tracks_amended ex_state (by decide)⟩

/-- When the track list is still below the configured maximum, one
position update appends the new segment without evicting anything. -/
lemma update_drone_position_of_le (cfg : MapConfig) (x y z : ℚ)
    (s : MapState) (h : s.tracks.length + 1 ≤ cfg.maxTracks) :
    update_drone_position cfg x y z s =
      { s with
        tracks := s.tracks ++ [pos_seg cfg x y s]
        canvasSegs := s.canvasSegs ++ [pos_seg cfg x y s]
        nextId := s.nextId + 1
        droneCorner :=
          ((toScreen x y InfiniteGridGraphicsScene.PIXELS_PER_METER).1 -
              cfg.iconW / 2,
            (toScreen x y InfiniteGridGraphicsScene.PIXELS_PER_METER).2 -
              cfg.iconH / 2) } := by
  have hc : ¬ (s.tracks ++ [pos_seg cfg x y s]).length > cfg.maxTracks := by
    simp only [List.length_append, List.length_singleton, List.length_nil,
      List.length_cons]
    omega
  simp only [update_drone_position]
  rw [if_neg hc]

/-- C7: processing the telemetry samples `(n=5, e=0, d=-2)` then
`(n=5, e=10, d=-2)` at scale 50 produces the track segments
`(0,0) → (0,-250)` and `(0,-250) → (500,-250)` — in particular a track
segment from screen `(0,-250)` to screen `(500,-250)` — and the
altitude readout displays `2`. -/
theorem telemetry_scenario (cfg : MapConfig) (h : 2 ≤ cfg.maxTracks)
    (bw bh bs : ℚ) :
    ((update_drone_position cfg 5 10 (-2)
        (update_drone_position cfg 5 0 (-2) (init_map_state cfg))).tracks.map
      (fun t => (t.p1, t.p2))) =
      [((0, 0), (0, -250)), ((0, -250), (500, -250))] ∧
    (set_altitude bw bh bs (-2)).display = 2 := by
  constructor
  · rw [update_drone_position_of_le cfg 5 0 (-2) (init_map_state cfg)
      (by simp [init_map_state]; omega)]
    rw [update_drone_position_of_le cfg 5 10 (-2) _
      (by simp [init_map_state]; omega)]
    simp only [init_map_state, pos_seg, current_center, toScreen,
      InfiniteGridGraphicsScene.PIXELS_PER_METER, List.nil_append,
      List.cons_append, List.map_cons, List.map_nil, Prod.mk.injEq,
      List.cons.injEq, List.append_nil]
    norm_num
    constructor <;> ring
  · show (-2 : ℚ) * (-1) = 2
    norm_num

/-- Witness for C7 with a bound of two tracks and the 80×50 side icon
at fit scale 1. -/
theorem telemetry_scenario_witness :
    2 ≤ (⟨2, 80, 80⟩ : MapConfig).maxTracks ∧
      (((update_drone_position ⟨2, 80, 80⟩ 5 10 (-2)
          (update_drone_position ⟨2, 80, 80⟩ 5 0 (-2)
            (init_map_state ⟨2, 80, 80⟩))).tracks.map
        (fun t => (t.p1, t.p2))) =
        [((0, 0), (0, -250)), ((0, -250), (500, -250))] ∧
      (set_altitude 80 50 1 (-2)).display = 2) :=
  ⟨by decide, telemetry_scenario ⟨2, 80, 80⟩ (by decide) 80 50 1⟩
